import Mathlib

/-!
Verification development for the transaction-execution core of go-abey
(`core/state_processor.go`): `Process`, `ApplyTransaction` and
`ReadTransaction`, shallowly embedded over explicit state passing.
External collaborators that live outside this file's source (the EVM
message executor, the state journal, the deny lists, the consensus
engine's `Finalize`) are modelled from their interface contracts and
passed in as an `Externals` record, so every theorem is parametric in
their behaviour.
-/

set_option autoImplicit false

/-- Account addresses, abstracted to naturals. -/
abbrev Address := Nat

/-- 32-byte hashes, abstracted to naturals. -/
abbrev Hash := Nat

/-- Errors are opaque to the core; Go `error` values become strings. -/
abbrev Err := String

/-- Reward summary returned by the consensus engine's Finalize; opaque to the core. -/
abbrev ChainReward := Nat

/-- Execution log entry, keyed for receipts by the transaction hash it was recorded under. -/
structure Log where
  address : Address
  txhash : Hash
  deriving DecidableEq, Repr

/-- Log bloom filter; modelled as the list of logs it summarizes. -/
abbrev Bloom := List Log

/-- Decoded, sender-resolved form of a transaction (Go `types.Message`).
Field order follows `types.NewMessage(from, to, payment, nonce, amount,
fee, gasLimit, gasPrice, data, checkNonce)`. -/
structure Msg where
  From : Address
  To : Option Address
  Payment : Address
  Nonce : Nat
  Value : Int
  Fee : Option Int
  Gas : Nat
  GasPrice : Int
  Data : List Nat
  CheckNonce : Bool
  deriving DecidableEq, Repr

/-- Go `types.NewMessage`, positional constructor of `Msg`. -/
def types.NewMessage (From : Address) (To : Option Address) (Payment : Address)
    (Nonce : Nat) (Value : Int) (Fee : Option Int) (Gas : Nat) (GasPrice : Int)
    (Data : List Nat) (CheckNonce : Bool) : Msg :=
  ⟨From, To, Payment, Nonce, Value, Fee, Gas, GasPrice, Data, CheckNonce⟩

/-- Signer derived from the chain config and block number (Go `types.MakeSigner`).
Signature recovery itself is external; its outcome is carried on the transaction. -/
structure Signer where
  blockNumber : Int
  deriving DecidableEq, Repr

deriving instance DecidableEq for Except

deriving instance Repr for Except

/-- A transaction: both hash derivations (legacy `HashOld` and post-TIP10 `Hash`),
the nonce, and the result of signature recovery (`AsMessage`) under the block
signer, carried as data since the crypto is external to the core. -/
structure Transaction where
  recovered : Except Err Msg
  hash : Hash
  hashOld : Hash
  nonce : Nat
  deriving DecidableEq

/-- Go `tx.AsMessage(signer)`: yields the recovered message or the recovery error. -/
def Transaction.AsMessage (tx : Transaction) (_s : Signer) : Except Err Msg :=
  tx.recovered

/-- Block header: height, gas limit and the header hash. -/
structure Header where
  number : Int
  gasLimit : Nat
  hash : Hash
  deriving DecidableEq, Repr

/-- A block: header plus the consensus-ordered transaction list. -/
structure Block where
  header : Header
  transactions : List Transaction
  deriving DecidableEq

/-- Modelled from the spec: `params.ChainConfig` is not under src; §6 exposes the
height-keyed fork predicate `IsTIP10`.  `tip10Block` is the TIP10 activation
height (`none` = fork not scheduled), and the predicate is height-monotonic. -/
structure ChainConfig where
  tip10Block : Option Int
  deriving DecidableEq, Repr

/-- Modelled from the spec: `IsTIP10(height)`, the single decision point selecting
the transaction-hash scheme; true once the activation height is reached. -/
def ChainConfig.IsTIP10 (c : ChainConfig) (n : Int) : Bool :=
  match c.tip10Block with
  | none => false
  | some b => decide (b ≤ n)

/-- Go `types.MakeSigner(config, blockNumber)`. -/
def types.MakeSigner (_config : ChainConfig) (blockNumber : Int) : Signer :=
  ⟨blockNumber⟩

/-- Per-block gas pool (Go `core.GasPool`, a `uint64` counter). -/
abbrev GasPool := Nat

/-- Go `gp.AddGas(n)`: credit gas to the pool. -/
def GasPool.AddGas (gp : GasPool) (n : Nat) : GasPool := gp + n

/-- Go `math.MaxUint64`, the seed of the read-only executor's gas pool. -/
def math.MaxUint64 : Nat := 2 ^ 64 - 1

/-- Account records (address, balance, nonce) as recorded in a state layer. -/
abbrev AccountList := List (Address × Int × Nat)

/-- Modelled from the spec: the state package is not under src.  §3/§6 describe a
State Handle with a committed layer, a pending (dirty-journal) layer that
`Finalise` commits, per-transaction `Prepare` bookkeeping
(`thash`/`bhash`/`txIdx`), and logs retrievable by transaction hash. -/
structure StateDB where
  committed : AccountList
  pending : AccountList
  logs : List (Hash × Log)
  thash : Hash
  bhash : Hash
  txIdx : Nat
  deriving DecidableEq, Repr

/-- Go `statedb.Prepare(txhash, blockHash, index)`: record the keys under which
this transaction's effects are indexed. -/
def StateDB.Prepare (s : StateDB) (thash bhash : Hash) (ti : Nat) : StateDB :=
  { s with thash := thash, bhash := bhash, txIdx := ti }

/-- Go `statedb.Finalise(deleteEmptyObjects)`: commit the pending journal. -/
def StateDB.Finalise (s : StateDB) (_deleteEmptyObjects : Bool) : StateDB :=
  { s with committed := s.pending }

/-- Go `statedb.GetLogs(txhash)`: the logs recorded under a transaction hash. -/
def StateDB.GetLogs (s : StateDB) (h : Hash) : List Log :=
  (s.logs.filter (fun p => p.1 == h)).map Prod.snd

/-- Go `statedb.BlockHash()`. -/
def StateDB.BlockHash (s : StateDB) : Hash := s.bhash

/-- Go `statedb.TxIndex()`. -/
def StateDB.TxIndex (s : StateDB) : Nat := s.txIdx

/-- Result of the external message executor (Go `core.ExecutionResult`):
gas consumed, whether the inner call reverted (`Failed()`), return bytes. -/
structure ExecutionResult where
  usedGas : Nat
  failed : Bool
  returnData : List Nat
  deriving DecidableEq, Repr

/-- One invocation outcome of the external executor: an optional fatal error,
the execution result, and the updated gas pool, pending journal and log list
(the only state components the Bytecode Executor interface of §6 may touch). -/
structure ExecOut where
  err : Option Err
  result : ExecutionResult
  gp : GasPool
  pending : AccountList
  execLogs : List (Hash × Log)
  deriving DecidableEq, Repr

/-- Per-transaction EVM context (Go `core.NewEVMContext`), modelled from the
spec §4.2: sender (origin), gas price and block fields. -/
structure EVMContext where
  origin : Address
  gasPrice : Int
  number : Int
  gasLimit : Nat
  deriving DecidableEq, Repr

/-- Go `core.NewEVMContext(msg, header, bc, nil, nil)`. -/
def NewEVMContext (msg : Msg) (header : Header) : EVMContext :=
  { origin := msg.From, gasPrice := msg.GasPrice,
    number := header.number, gasLimit := header.gasLimit }

/-- Go `vm.Config` (tracing flags); carries no semantics here. -/
def vm.Config := Unit

/-- Go `vm.EVM`: the environment packaging context, state handle and config. -/
structure vm.EVM where
  Context : EVMContext
  stateDB : StateDB
  chainConfig : ChainConfig

/-- Go `vm.NewEVM(context, statedb, config, cfg)`. -/
def vm.NewEVM (context : EVMContext) (statedb : StateDB) (config : ChainConfig)
    (_cfg : vm.Config) : vm.EVM :=
  ⟨context, statedb, config⟩

/-- Per-transaction execution outcome record (Go `types.Receipt`). -/
structure Receipt where
  postState : List Nat
  status : Bool
  cumulativeGasUsed : Nat
  txHash : Hash
  gasUsed : Nat
  contractAddress : Option Address
  logs : List Log
  bloom : Bloom
  blockHash : Hash
  blockNumber : Int
  transactionIndex : Nat
  deriving DecidableEq, Repr

/-- Go `types.NewReceipt(root, failed, cumulativeGasUsed)`: a fresh receipt with
the success flag and running gas total set, all other fields zero-valued. -/
def types.NewReceipt (root : List Nat) (failed : Bool) (cumulativeGasUsed : Nat) : Receipt :=
  { postState := root, status := !failed, cumulativeGasUsed := cumulativeGasUsed,
    txHash := 0, gasUsed := 0, contractAddress := none, logs := [], bloom := [],
    blockHash := 0, blockNumber := 0, transactionIndex := 0 }

/-- Go `types.CreateBloom(receipts)`: the bloom summarizing the receipts' logs. -/
def types.CreateBloom (rs : List Receipt) : Bloom :=
  (rs.map Receipt.logs).flatten

/-- External collaborators of the core, modelled from the spec §6: the bytecode
executor behind `ApplyMessage`, the two deny-list predicates behind
`types.ForbidAddress`/`ForbidAddress2`, and the consensus engine's `Finalize`. -/
structure Externals where
  exec : Msg → EVMContext → GasPool → StateDB → ExecOut
  forbidden : Address → Bool
  forbidden2 : Address → Bool
  finalize : Header → StateDB → List Transaction → List Receipt → Int →
    Except Err (ChainReward × StateDB)

/-- Modelled from the spec: `types.ForbidAddress` (first deny list, active above H1). -/
def types.ForbidAddress (X : Externals) (a : Address) : Option Err :=
  if X.forbidden a then some "ForbiddenSender" else none

/-- Modelled from the spec: `types.ForbidAddress2` (second, stricter deny list, active above H2). -/
def types.ForbidAddress2 (X : Externals) (a : Address) : Option Err :=
  if X.forbidden2 a then some "ForbiddenSender2" else none

/-- Modelled from the spec: `crypto.CreateAddress(sender, nonce)`, a deterministic
contract address derived from sender and nonce (injectively paired). -/
def crypto.CreateAddress (a : Address) (nonce : Nat) : Address :=
  Nat.pair a nonce

/-- Go `core.ApplyMessage(vmenv, msg, gp)`: run the external executor on the
EVM environment's state; it may update the gas pool, the pending journal and
the logs, and reports either a fatal error or an execution result. -/
def ApplyMessage (X : Externals) (vmenv : vm.EVM) (msg : Msg) (gp : GasPool) :
    (Except Err ExecutionResult) × GasPool × StateDB :=
  let o := X.exec msg vmenv.Context gp vmenv.stateDB
  let st' := { vmenv.stateDB with pending := o.pending, logs := o.execLogs }
  match o.err with
  | some e => (.error e, o.gp, st')
  | none => (.ok o.result, o.gp, st')

/-- Hard-Fork Policy Gate of `ApplyTransaction` (state_processor.go lines
113-123): above height 6638000 the first deny list applies, and above height
24642000 the second deny list additionally applies. -/
def txGateErr (X : Externals) (n : Int) (a : Address) : Option Err :=
  if n > 6638000 then
    match types.ForbidAddress X a with
    | some e => some e
    | none =>
      if n > 24642000 then types.ForbidAddress2 X a
      else none
  else none

/-- Go `core.ApplyTransaction` (state_processor.go lines 107-168).  Moves the
by-pointer parameters (`gp`, `statedb`, `usedGas`, `feeAmount`) into explicit
inputs and outputs; the first output component is the Go return value
`(receipt, err)`.  Early returns leave the remaining components as the caller
would observe them through the pointers. -/
def ApplyTransaction (X : Externals) (config : ChainConfig) (gp : GasPool)
    (statedb : StateDB) (header : Header) (tx : Transaction)
    (usedGas : Nat) (feeAmount : Int) (cfg : vm.Config) :
    (Except Err Receipt) × GasPool × StateDB × Nat × Int :=
  match tx.AsMessage (types.MakeSigner config header.number) with
  | .error e => (.error e, gp, statedb, usedGas, feeAmount)
  | .ok msg =>
    match txGateErr X header.number msg.From with
    | some e => (.error e, gp, statedb, usedGas, feeAmount)
    | none =>
      let context := NewEVMContext msg header
      let vmenv := vm.NewEVM context statedb config cfg
      match ApplyMessage X vmenv msg gp with
      | (.error e, gp2, st2) => (.error e, gp2, st2, usedGas, feeAmount)
      | (.ok result, gp2, st2) =>
        let root : List Nat := []
        let st3 := st2.Finalise true
        let usedGas2 := usedGas + result.usedGas
        let gasFee : Int := (result.usedGas : Int) * msg.GasPrice
        let fee2 := gasFee + feeAmount
        let fee3 := match msg.Fee with
          | some f => f + fee2
          | none => fee2
        let txhash := if config.IsTIP10 header.number then tx.hash else tx.hashOld
        let receipt0 := types.NewReceipt root result.failed usedGas2
        let receipt1 := { receipt0 with txHash := txhash, gasUsed := result.usedGas }
        let receipt2 := match msg.To with
          | none => { receipt1 with
              contractAddress := some (crypto.CreateAddress vmenv.Context.origin tx.nonce) }
          | some _ => receipt1
        let receipt3 := { receipt2 with logs := st3.GetLogs txhash }
        let receipt4 := { receipt3 with bloom := types.CreateBloom [receipt3] }
        let receipt5 := { receipt4 with
          blockHash := st3.BlockHash, blockNumber := header.number,
          transactionIndex := st3.TxIndex }
        (.ok receipt5, gp2, st3, usedGas2, fee3)

/-- Final values of the mutable locals of `Process` after the transaction loop. -/
structure TxLoopOut where
  receipts : List Receipt
  allLogs : List Log
  usedGas : Nat
  feeAmount : Int
  gp : GasPool
  statedb : StateDB
  deriving DecidableEq, Repr

/-- Transaction loop of `Process` (state_processor.go lines 79-91): select the
transaction hash by the TIP10 gate at the block's number, `Prepare` the state
under that hash, apply the transaction, and accumulate receipts and logs;
propagate the first failure. -/
def processTxs (X : Externals) (config : ChainConfig) (block : Block) (cfg : vm.Config) :
    List Transaction → Nat → GasPool → StateDB → Nat → Int → List Receipt → List Log →
    Except Err TxLoopOut
  | [], _, gp, statedb, usedGas, feeAmount, receipts, allLogs =>
    .ok ⟨receipts, allLogs, usedGas, feeAmount, gp, statedb⟩
  | tx :: txs, i, gp, statedb, usedGas, feeAmount, receipts, allLogs =>
    let txhash := if config.IsTIP10 block.header.number then tx.hash else tx.hashOld
    let statedb := statedb.Prepare txhash block.header.hash i
    match ApplyTransaction X config gp statedb block.header tx usedGas feeAmount cfg with
    | (.error e, _, _, _, _) => .error e
    | (.ok receipt, gp2, statedb2, usedGas2, feeAmount2) =>
      processTxs X config block cfg txs (i + 1) gp2 statedb2 usedGas2 feeAmount2
        (receipts ++ [receipt]) (allLogs ++ receipt.logs)

/-- Go `StateProcessor.Process` (state_processor.go lines 67-101): run the
transaction loop from a gas pool seeded with the block's gas limit, a zero
used-gas counter and a zero fee accumulator, then hand the header, state,
transactions, receipts and final fee to the consensus engine's Finalize. -/
def Process (X : Externals) (config : ChainConfig) (block : Block) (statedb : StateDB)
    (cfg : vm.Config) :
    Except Err (List Receipt × List Log × Nat × ChainReward × StateDB) :=
  let usedGas := 0
  let feeAmount : Int := 0
  let header := block.header
  let gp := GasPool.AddGas 0 block.header.gasLimit
  match processTxs X config block cfg block.transactions 0 gp statedb usedGas feeAmount [] [] with
  | .error e => .error e
  | .ok out =>
    match X.finalize header out.statedb block.transactions out.receipts out.feeAmount with
    | .error e => .error e
    | .ok (infos, statedb2) =>
      .ok (out.receipts, out.allLogs, out.usedGas, infos, statedb2)

/-- Go `core.ReadTransaction` (state_processor.go lines 174-203).  The second
output component is the state as the caller observes it through the pointer
after the call.  Note line 197 of the source passes the original recovered
message `msg`, not `msgCopy`, to `ApplyMessage`. -/
def ReadTransaction (X : Externals) (config : ChainConfig) (statedb : StateDB)
    (header : Header) (tx : Transaction) (cfg : vm.Config) :
    (Except Err (List Nat × Nat)) × StateDB :=
  match tx.AsMessage (types.MakeSigner config header.number) with
  | .error e => (.error e, statedb)
  | .ok msg =>
    let msgCopy := types.NewMessage msg.From msg.To msg.Payment 0 msg.Value msg.Fee
      msg.Gas msg.GasPrice msg.Data false
    match (if header.number > 6638000 then types.ForbidAddress X msgCopy.From else none) with
    | some e => (.error e, statedb)
    | none =>
      let context := NewEVMContext msgCopy header
      let vmenv := vm.NewEVM context statedb config cfg
      let gp := GasPool.AddGas 0 math.MaxUint64
      match ApplyMessage X vmenv msg gp with
      | (.error e, _, st2) => (.error e, st2)
      | (.ok result, _, st2) => (.ok (result.returnData, result.usedGas), st2)

/-- Spec-side twin of `ReadTransaction` for claim C7, following the spec's words
(§4.5): the executed message is the reconstruction of the recovered message
with the payment field stripped, zero nonce and no nonce check. -/
def ReadTransactionSpecC7 (X : Externals) (config : ChainConfig) (statedb : StateDB)
    (header : Header) (tx : Transaction) (cfg : vm.Config) :
    (Except Err (List Nat × Nat)) × StateDB :=
  match tx.AsMessage (types.MakeSigner config header.number) with
  | .error e => (.error e, statedb)
  | .ok msg =>
    let msgCopy := types.NewMessage msg.From msg.To 0 0 msg.Value msg.Fee
      msg.Gas msg.GasPrice msg.Data false
    match (if header.number > 6638000 then types.ForbidAddress X msgCopy.From else none) with
    | some e => (.error e, statedb)
    | none =>
      let context := NewEVMContext msgCopy header
      let vmenv := vm.NewEVM context statedb config cfg
      let gp := GasPool.AddGas 0 math.MaxUint64
      match ApplyMessage X vmenv msgCopy gp with
      | (.error e, _, st2) => (.error e, st2)
      | (.ok result, _, st2) => (.ok (result.returnData, result.usedGas), st2)

/-- Fee contribution of one transaction given its gas consumption: gas times the
recovered message's gas price, plus the explicit fee when present. -/
def msgFeeTerm (tx : Transaction) (g : Nat) : Int :=
  match tx.recovered with
  | .ok m => (g : Int) * m.GasPrice + m.Fee.getD 0
  | .error _ => 0

/-- Transaction hash selected by the TIP10 gate at height `n`: the new
derivation once TIP10 holds, the legacy derivation otherwise. -/
def selectedHash (config : ChainConfig) (n : Int) (tx : Transaction) : Hash :=
  if config.IsTIP10 n then tx.hash else tx.hashOld

/-- State of the handle right after the external executor ran: only the
pending journal and the log list changed. -/
def execStateAfter (st : StateDB) (o : ExecOut) : StateDB :=
  { st with pending := o.pending, logs := o.execLogs }

/-- Receipt produced by a successful `ApplyTransaction` on state `st` with
recovered message `m`, executor outcome `o` and incoming used-gas total `ug`. -/
def appliedReceipt (config : ChainConfig) (hd : Header) (tx : Transaction) (m : Msg)
    (o : ExecOut) (st : StateDB) (ug : Nat) : Receipt :=
  let txh := selectedHash config hd.number tx
  let logsR := ((execStateAfter st o).Finalise true).GetLogs txh
  { postState := [], status := !o.result.failed, cumulativeGasUsed := ug + o.result.usedGas,
    txHash := txh, gasUsed := o.result.usedGas,
    contractAddress := match m.To with
      | none => some (crypto.CreateAddress m.From tx.nonce)
      | some _ => none,
    logs := logsR, bloom := logsR,
    blockHash := st.bhash, blockNumber := hd.number, transactionIndex := st.txIdx }

/-- The Policy Gate lets sender `a` through at height `n`: neither deny list
rejects it at the thresholds where each is active. -/
def gatePasses (X : Externals) (n : Int) (a : Address) : Prop :=
  ¬(n > 6638000 ∧ X.forbidden a = true) ∧ ¬(n > 24642000 ∧ X.forbidden2 a = true)

instance gatePasses.dec (X : Externals) (n : Int) (a : Address) :
    Decidable (gatePasses X n a) := by
  unfold gatePasses
  infer_instance

lemma txGateErr_none_of_gatePasses (X : Externals) (n : Int) (a : Address)
    (hg : gatePasses X n a) : txGateErr X n a = none := by
  obtain ⟨hg1, hg2⟩ := hg
  by_cases h1 : n > 6638000
  · have hf : X.forbidden a = false := by
      cases hfa : X.forbidden a
      · rfl
      · exact absurd ⟨h1, hfa⟩ hg1
    by_cases h2 : n > 24642000
    · have hf2 : X.forbidden2 a = false := by
        cases hfa : X.forbidden2 a
        · rfl
        · exact absurd ⟨h2, hfa⟩ hg2
      simp [txGateErr, types.ForbidAddress, types.ForbidAddress2, h1, h2, hf, hf2]
    · simp [txGateErr, types.ForbidAddress, h1, h2, hf]
  · simp [txGateErr, h1]

lemma ApplyTransaction_recover_error (X : Externals) (config : ChainConfig)
    (gp : GasPool) (st : StateDB) (hd : Header) (tx : Transaction) (ug : Nat)
    (fee : Int) (cfg : vm.Config) (e : Err) (h : tx.recovered = .error e) :
    ApplyTransaction X config gp st hd tx ug fee cfg = (.error e, gp, st, ug, fee) := by
  simp [ApplyTransaction, Transaction.AsMessage, h]

lemma ApplyTransaction_gate1 (X : Externals) (config : ChainConfig)
    (gp : GasPool) (st : StateDB) (hd : Header) (tx : Transaction) (ug : Nat)
    (fee : Int) (cfg : vm.Config) (m : Msg) (hm : tx.recovered = .ok m)
    (h1 : hd.number > 6638000) (hf : X.forbidden m.From = true) :
    ApplyTransaction X config gp st hd tx ug fee cfg =
      (.error "ForbiddenSender", gp, st, ug, fee) := by
  simp [ApplyTransaction, Transaction.AsMessage, hm, txGateErr,
    types.ForbidAddress, h1, hf]

lemma ApplyTransaction_gate2 (X : Externals) (config : ChainConfig)
    (gp : GasPool) (st : StateDB) (hd : Header) (tx : Transaction) (ug : Nat)
    (fee : Int) (cfg : vm.Config) (m : Msg) (hm : tx.recovered = .ok m)
    (h2 : hd.number > 24642000) (hf1 : X.forbidden m.From = false)
    (hf2 : X.forbidden2 m.From = true) :
    ApplyTransaction X config gp st hd tx ug fee cfg =
      (.error "ForbiddenSender2", gp, st, ug, fee) := by
  have h1 : hd.number > 6638000 := by omega
  simp [ApplyTransaction, Transaction.AsMessage, hm, txGateErr,
    types.ForbidAddress, types.ForbidAddress2, h1, h2, hf1, hf2]

lemma ApplyTransaction_exec_error (X : Externals) (config : ChainConfig)
    (gp : GasPool) (st : StateDB) (hd : Header) (tx : Transaction) (ug : Nat)
    (fee : Int) (cfg : vm.Config) (m : Msg) (e : Err) (hm : tx.recovered = .ok m)
    (hg : gatePasses X hd.number m.From)
    (he : (X.exec m (NewEVMContext m hd) gp st).err = some e) :
    ApplyTransaction X config gp st hd tx ug fee cfg =
      (.error e, (X.exec m (NewEVMContext m hd) gp st).gp,
       execStateAfter st (X.exec m (NewEVMContext m hd) gp st), ug, fee) := by
  have hgate := txGateErr_none_of_gatePasses X hd.number m.From hg
  simp [ApplyTransaction, Transaction.AsMessage, hm, hgate, ApplyMessage,
    vm.NewEVM, he, execStateAfter]

lemma ApplyTransaction_exec_ok (X : Externals) (config : ChainConfig)
    (gp : GasPool) (st : StateDB) (hd : Header) (tx : Transaction) (ug : Nat)
    (fee : Int) (cfg : vm.Config) (m : Msg) (hm : tx.recovered = .ok m)
    (hg : gatePasses X hd.number m.From)
    (ho : (X.exec m (NewEVMContext m hd) gp st).err = none) :
    ApplyTransaction X config gp st hd tx ug fee cfg =
      (.ok (appliedReceipt config hd tx m (X.exec m (NewEVMContext m hd) gp st) st ug),
       (X.exec m (NewEVMContext m hd) gp st).gp,
       (execStateAfter st (X.exec m (NewEVMContext m hd) gp st)).Finalise true,
       ug + (X.exec m (NewEVMContext m hd) gp st).result.usedGas,
       fee + ((X.exec m (NewEVMContext m hd) gp st).result.usedGas : Int) * m.GasPrice
         + m.Fee.getD 0) := by
  have hgate := txGateErr_none_of_gatePasses X hd.number m.From hg
  simp only [ApplyTransaction, Transaction.AsMessage, hm, hgate, ApplyMessage,
    vm.NewEVM, ho, Prod.mk.injEq, Except.ok.injEq]
  refine ⟨?_, trivial, ?_, trivial, ?_⟩
  · cases hto : m.To <;>
      simp [appliedReceipt, types.NewReceipt, types.CreateBloom, selectedHash,
        execStateAfter, StateDB.Finalise, StateDB.GetLogs, StateDB.BlockHash,
        StateDB.TxIndex, NewEVMContext, hto]
  · simp [execStateAfter, StateDB.Finalise]
  · cases hfee : m.Fee <;> simp [hfee] <;> ring

@[simp] lemma StateDB.Prepare_committed (s : StateDB) (t b : Hash) (i : Nat) :
    (s.Prepare t b i).committed = s.committed := rfl

@[simp] lemma StateDB.Prepare_pending (s : StateDB) (t b : Hash) (i : Nat) :
    (s.Prepare t b i).pending = s.pending := rfl

@[simp] lemma StateDB.Prepare_logs (s : StateDB) (t b : Hash) (i : Nat) :
    (s.Prepare t b i).logs = s.logs := rfl

@[simp] lemma StateDB.Prepare_thash (s : StateDB) (t b : Hash) (i : Nat) :
    (s.Prepare t b i).thash = t := rfl

@[simp] lemma StateDB.Prepare_bhash (s : StateDB) (t b : Hash) (i : Nat) :
    (s.Prepare t b i).bhash = b := rfl

@[simp] lemma StateDB.Prepare_txIdx (s : StateDB) (t b : Hash) (i : Nat) :
    (s.Prepare t b i).txIdx = i := rfl

@[simp] lemma appliedReceipt_txHash (config : ChainConfig) (hd : Header)
    (tx : Transaction) (m : Msg) (o : ExecOut) (st : StateDB) (ug : Nat) :
    (appliedReceipt config hd tx m o st ug).txHash = selectedHash config hd.number tx := rfl

@[simp] lemma appliedReceipt_gasUsed (config : ChainConfig) (hd : Header)
    (tx : Transaction) (m : Msg) (o : ExecOut) (st : StateDB) (ug : Nat) :
    (appliedReceipt config hd tx m o st ug).gasUsed = o.result.usedGas := rfl

@[simp] lemma appliedReceipt_cumulativeGasUsed (config : ChainConfig) (hd : Header)
    (tx : Transaction) (m : Msg) (o : ExecOut) (st : StateDB) (ug : Nat) :
    (appliedReceipt config hd tx m o st ug).cumulativeGasUsed = ug + o.result.usedGas := rfl

@[simp] lemma appliedReceipt_status (config : ChainConfig) (hd : Header)
    (tx : Transaction) (m : Msg) (o : ExecOut) (st : StateDB) (ug : Nat) :
    (appliedReceipt config hd tx m o st ug).status = !o.result.failed := rfl

@[simp] lemma appliedReceipt_blockNumber (config : ChainConfig) (hd : Header)
    (tx : Transaction) (m : Msg) (o : ExecOut) (st : StateDB) (ug : Nat) :
    (appliedReceipt config hd tx m o st ug).blockNumber = hd.number := rfl

@[simp] lemma appliedReceipt_blockHash (config : ChainConfig) (hd : Header)
    (tx : Transaction) (m : Msg) (o : ExecOut) (st : StateDB) (ug : Nat) :
    (appliedReceipt config hd tx m o st ug).blockHash = st.bhash := rfl

@[simp] lemma appliedReceipt_transactionIndex (config : ChainConfig) (hd : Header)
    (tx : Transaction) (m : Msg) (o : ExecOut) (st : StateDB) (ug : Nat) :
    (appliedReceipt config hd tx m o st ug).transactionIndex = st.txIdx := rfl

@[simp] lemma appliedReceipt_logs (config : ChainConfig) (hd : Header)
    (tx : Transaction) (m : Msg) (o : ExecOut) (st : StateDB) (ug : Nat) :
    (appliedReceipt config hd tx m o st ug).logs =
      ((execStateAfter st o).Finalise true).GetLogs (selectedHash config hd.number tx) := rfl

@[simp] lemma appliedReceipt_bloom (config : ChainConfig) (hd : Header)
    (tx : Transaction) (m : Msg) (o : ExecOut) (st : StateDB) (ug : Nat) :
    (appliedReceipt config hd tx m o st ug).bloom =
      ((execStateAfter st o).Finalise true).GetLogs (selectedHash config hd.number tx) := rfl

@[simp] lemma appliedReceipt_contractAddress (config : ChainConfig) (hd : Header)
    (tx : Transaction) (m : Msg) (o : ExecOut) (st : StateDB) (ug : Nat) :
    (appliedReceipt config hd tx m o st ug).contractAddress =
      (match m.To with
        | none => some (crypto.CreateAddress m.From tx.nonce)
        | some _ => none) := rfl

lemma gatePasses_of_txGateErr_none (X : Externals) (n : Int) (a : Address)
    (h : txGateErr X n a = none) : gatePasses X n a := by
  unfold txGateErr at h
  constructor
  · rintro ⟨h1, hf⟩
    simp [h1, types.ForbidAddress, hf] at h
  · rintro ⟨h2, hf2⟩
    have h1 : n > 6638000 := by omega
    by_cases hf : X.forbidden a
    · simp [h1, types.ForbidAddress, hf] at h
    · simp [h1, h2, types.ForbidAddress, types.ForbidAddress2, hf, hf2] at h

lemma ApplyTransaction_gateErr (X : Externals) (config : ChainConfig)
    (gp : GasPool) (st : StateDB) (hd : Header) (tx : Transaction) (ug : Nat)
    (fee : Int) (cfg : vm.Config) (m : Msg) (e : Err) (hm : tx.recovered = .ok m)
    (hgate : txGateErr X hd.number m.From = some e) :
    ApplyTransaction X config gp st hd tx ug fee cfg = (.error e, gp, st, ug, fee) := by
  simp [ApplyTransaction, Transaction.AsMessage, hm, hgate]

lemma ApplyTransaction_ok_inv (X : Externals) (config : ChainConfig)
    (gp : GasPool) (st : StateDB) (hd : Header) (tx : Transaction) (ug : Nat)
    (fee : Int) (cfg : vm.Config) (rcp : Receipt) (gp' : GasPool) (st' : StateDB)
    (ug' : Nat) (fee' : Int)
    (h : ApplyTransaction X config gp st hd tx ug fee cfg = (.ok rcp, gp', st', ug', fee')) :
    ∃ m, tx.recovered = .ok m ∧ gatePasses X hd.number m.From ∧
      (X.exec m (NewEVMContext m hd) gp st).err = none ∧
      rcp = appliedReceipt config hd tx m (X.exec m (NewEVMContext m hd) gp st) st ug ∧
      gp' = (X.exec m (NewEVMContext m hd) gp st).gp ∧
      st' = (execStateAfter st (X.exec m (NewEVMContext m hd) gp st)).Finalise true ∧
      ug' = ug + (X.exec m (NewEVMContext m hd) gp st).result.usedGas ∧
      fee' = fee + ((X.exec m (NewEVMContext m hd) gp st).result.usedGas : Int) * m.GasPrice
        + m.Fee.getD 0 := by
  cases hm : tx.recovered with
  | error e =>
    rw [ApplyTransaction_recover_error X config gp st hd tx ug fee cfg e hm] at h
    exact absurd h (by simp)
  | ok m =>
    cases hgate : txGateErr X hd.number m.From with
    | some e =>
      rw [ApplyTransaction_gateErr X config gp st hd tx ug fee cfg m e hm hgate] at h
      exact absurd h (by simp)
    | none =>
      have hg := gatePasses_of_txGateErr_none X hd.number m.From hgate
      cases ho : (X.exec m (NewEVMContext m hd) gp st).err with
      | some e =>
        rw [ApplyTransaction_exec_error X config gp st hd tx ug fee cfg m e hm hg ho] at h
        exact absurd h (by simp)
      | none =>
        rw [ApplyTransaction_exec_ok X config gp st hd tx ug fee cfg m hm hg ho] at h
        simp only [Prod.mk.injEq, Except.ok.injEq] at h
        obtain ⟨h1, h2, h3, h4, h5⟩ := h
        exact ⟨m, rfl, hg, ho, h1.symm, h2.symm, h3.symm, h4.symm, h5.symm⟩

lemma processTxs_ok_spec (X : Externals) (config : ChainConfig) (b : Block)
    (cfg : vm.Config) :
    ∀ (txs : List Transaction) (i : Nat) (gp : GasPool) (st : StateDB) (ug : Nat)
      (fee : Int) (rs0 : List Receipt) (ls0 : List Log) (out : TxLoopOut),
      processTxs X config b cfg txs i gp st ug fee rs0 ls0 = .ok out →
      ∃ δ : List Receipt,
        out.receipts = rs0 ++ δ ∧
        out.allLogs = ls0 ++ (δ.map Receipt.logs).flatten ∧
        δ.length = txs.length ∧
        out.usedGas = ug + (δ.map Receipt.gasUsed).sum ∧
        out.feeAmount = fee + ((txs.zip δ).map (fun p => msgFeeTerm p.1 p.2.gasUsed)).sum ∧
        ∀ (k : Nat) (hk : k < δ.length) (ht : k < txs.length),
          (δ.get ⟨k, hk⟩).transactionIndex = i + k ∧
          (δ.get ⟨k, hk⟩).txHash = selectedHash config b.header.number (txs.get ⟨k, ht⟩) ∧
          (δ.get ⟨k, hk⟩).blockNumber = b.header.number ∧
          (δ.get ⟨k, hk⟩).blockHash = b.header.hash ∧
          (δ.get ⟨k, hk⟩).cumulativeGasUsed = ug + ((δ.take (k + 1)).map Receipt.gasUsed).sum := by
  intro txs
  induction txs with
  | nil =>
    intro i gp st ug fee rs0 ls0 out h
    refine ⟨[], ?_⟩
    simp only [processTxs, Except.ok.injEq] at h
    subst h
    simp
  | cons tx txs ih =>
    intro i gp st ug fee rs0 ls0 out h
    simp only [processTxs] at h
    split at h
    · exact absurd h (by simp)
    · rename_i rcp gp2 st2 ug2 fee2 heq
      obtain ⟨m, hm, hg, ho, hrcp, hgp2, hst2, hug2, hfee2⟩ :=
        ApplyTransaction_ok_inv _ _ _ _ _ _ _ _ _ _ _ _ _ _ heq
      obtain ⟨δ', h1, h2, h3, h4, h5, h6⟩ :=
        ih (i + 1) gp2 st2 ug2 fee2 (rs0 ++ [rcp]) (ls0 ++ rcp.logs) out h
      refine ⟨rcp :: δ', ?_, ?_, ?_, ?_, ?_, ?_⟩
      · rw [h1]; simp
      · rw [h2]; simp
      · simp [h3]
      · rw [h4, hug2]
        have hgu : rcp.gasUsed = ((X.exec m (NewEVMContext m b.header)) gp
            (st.Prepare (if config.IsTIP10 b.header.number then tx.hash else tx.hashOld)
              b.header.hash i)).result.usedGas := by
          rw [hrcp]; simp
        simp only [List.map_cons, List.sum_cons]
        omega
      · rw [h5, hfee2]
        have hgu : rcp.gasUsed = ((X.exec m (NewEVMContext m b.header)) gp
            (st.Prepare (if config.IsTIP10 b.header.number then tx.hash else tx.hashOld)
              b.header.hash i)).result.usedGas := by
          rw [hrcp]; simp
        simp only [List.zip_cons_cons, List.map_cons, List.sum_cons, msgFeeTerm, hm, hgu]
        ring
      · intro k hk ht
        match k with
        | 0 =>
          refine ⟨?_, ?_, ?_, ?_, ?_⟩ <;>
            simp [hrcp, selectedHash]
        | Nat.succ k' =>
          have hk' : k' < δ'.length := by simpa using hk
          have ht' : k' < txs.length := by simpa using ht
          obtain ⟨p1, p2, p3, p4, p5⟩ := h6 k' hk' ht'
          have hgu : rcp.gasUsed = ((X.exec m (NewEVMContext m b.header)) gp
              (st.Prepare (if config.IsTIP10 b.header.number then tx.hash else tx.hashOld)
                b.header.hash i)).result.usedGas := by
            rw [hrcp]; simp
          simp only [List.get_eq_getElem] at p1 p2 p3 p4 p5
          refine ⟨?_, ?_, ?_, ?_, ?_⟩ <;>
            simp only [List.get_eq_getElem, List.getElem_cons_succ, List.take_succ_cons,
              List.map_cons, List.sum_cons]
          · omega
          · exact p2
          · exact p3
          · exact p4
          · rw [p5, hug2]
            omega

/-- Claim C1: for every block, `Process` initializes the Gas Pool to the block's
declared gas limit and a zero fee accumulator, executes the block's transactions
in block order through `ApplyTransaction` (the `processTxs` loop starting from
index 0, used-gas 0, fee 0 and gas pool `AddGas 0 gasLimit`), appends each
transaction's Receipt to the receipt sequence and its Logs (in transaction
order) to the flattened log sequence, invokes the consensus engine's `Finalize`
after all transactions succeed, and returns the receipts, logs, total gas used,
and Finalize's reward summary. -/
theorem process_block_structure (X : Externals) (config : ChainConfig) (b : Block)
    (st : StateDB) (cfg : vm.Config) (rs : List Receipt) (ls : List Log) (ug : Nat)
    (rw : ChainReward) (st' : StateDB)
    (h : Process X config b st cfg = .ok (rs, ls, ug, rw, st')) :
    ∃ fee gp1 st1,
      processTxs X config b cfg b.transactions 0 (GasPool.AddGas 0 b.header.gasLimit)
        st 0 0 [] [] = .ok ⟨rs, ls, ug, fee, gp1, st1⟩ ∧
      X.finalize b.header st1 b.transactions rs fee = .ok (rw, st') ∧
      ls = (rs.map Receipt.logs).flatten ∧
      rs.length = b.transactions.length ∧
      ug = (rs.map Receipt.gasUsed).sum := by
  simp only [Process] at h
  split at h
  · exact absurd h (by simp)
  · rename_i out hloop
    split at h
    · exact absurd h (by simp)
    · rename_i rw2 st2 hfin
      simp only [Except.ok.injEq, Prod.mk.injEq] at h
      obtain ⟨hrs, hls, hug, hrw, hst⟩ := h
      obtain ⟨δ, d1, d2, d3, d4, d5, d6⟩ :=
        processTxs_ok_spec X config b cfg b.transactions 0 _ st 0 0 [] [] out hloop
      subst hrs hls hug hrw hst
      refine ⟨out.feeAmount, out.gp, out.statedb, ?_, hfin, ?_, ?_, ?_⟩
      · rw [← hloop]
      · rw [d2, d1]; simp
      · simp [d1, d3]
      · rw [d4, d1]; simp

/-- Claim C10: on every error path of `ApplyTransaction` (signature-recovery
failure, deny-list rejection, executor error) the used-gas counter and the fee
accumulator are returned exactly as they came in; they are only advanced on
the success path after the executor returned without error. -/
theorem applyTransaction_error_preserves_accumulators (X : Externals)
    (config : ChainConfig) (gp : GasPool) (st : StateDB) (hd : Header)
    (tx : Transaction) (ug : Nat) (fee : Int) (cfg : vm.Config) (e : Err)
    (gp' : GasPool) (st' : StateDB) (ug' : Nat) (fee' : Int)
    (h : ApplyTransaction X config gp st hd tx ug fee cfg = (.error e, gp', st', ug', fee')) :
    ug' = ug ∧ fee' = fee := by
  cases hm : tx.recovered with
  | error e2 =>
    rw [ApplyTransaction_recover_error X config gp st hd tx ug fee cfg e2 hm] at h
    simp only [Prod.mk.injEq] at h
    exact ⟨h.2.2.2.1.symm, h.2.2.2.2.symm⟩
  | ok m =>
    cases hgate : txGateErr X hd.number m.From with
    | some e2 =>
      rw [ApplyTransaction_gateErr X config gp st hd tx ug fee cfg m e2 hm hgate] at h
      simp only [Prod.mk.injEq] at h
      exact ⟨h.2.2.2.1.symm, h.2.2.2.2.symm⟩
    | none =>
      have hg := gatePasses_of_txGateErr_none X hd.number m.From hgate
      cases ho : (X.exec m (NewEVMContext m hd) gp st).err with
      | some e2 =>
        rw [ApplyTransaction_exec_error X config gp st hd tx ug fee cfg m e2 hm hg ho] at h
        simp only [Prod.mk.injEq] at h
        exact ⟨h.2.2.2.1.symm, h.2.2.2.2.symm⟩
      | none =>
        rw [ApplyTransaction_exec_ok X config gp st hd tx ug fee cfg m hm hg ho] at h
        exact absurd h (by simp)

/-- Claim C2: for every transaction, `ApplyTransaction` distinguishes the two
failure classes.  When the executor reports no error but the inner call
reverted, `ApplyTransaction` returns no error and a valid Receipt whose
success flag mirrors the (negated) revert flag, and the `Process` loop
continues with the receipt appended; when the executor returns an error,
`ApplyTransaction` propagates it and the loop aborts with no Receipt for
that transaction. -/
theorem applyTransaction_failure_classes (X : Externals) (config : ChainConfig)
    (b : Block) (cfg : vm.Config) (txs : List Transaction) (tx : Transaction)
    (i : Nat) (gp : GasPool) (st : StateDB) (ug : Nat) (fee : Int)
    (rs : List Receipt) (ls : List Log) (m : Msg)
    (hm : tx.recovered = .ok m)
    (hg : gatePasses X b.header.number m.From) :
    ((X.exec m (NewEVMContext m b.header) gp
        (st.Prepare (if config.IsTIP10 b.header.number then tx.hash else tx.hashOld)
          b.header.hash i)).err = none →
      ∃ rcp gp2 st2 ug2 fee2,
        ApplyTransaction X config gp
          (st.Prepare (if config.IsTIP10 b.header.number then tx.hash else tx.hashOld)
            b.header.hash i) b.header tx ug fee cfg = (.ok rcp, gp2, st2, ug2, fee2) ∧
        rcp.status = !(X.exec m (NewEVMContext m b.header) gp
          (st.Prepare (if config.IsTIP10 b.header.number then tx.hash else tx.hashOld)
            b.header.hash i)).result.failed ∧
        processTxs X config b cfg (tx :: txs) i gp st ug fee rs ls =
          processTxs X config b cfg txs (i + 1) gp2 st2 ug2 fee2
            (rs ++ [rcp]) (ls ++ rcp.logs)) ∧
    (∀ e, (X.exec m (NewEVMContext m b.header) gp
        (st.Prepare (if config.IsTIP10 b.header.number then tx.hash else tx.hashOld)
          b.header.hash i)).err = some e →
      (ApplyTransaction X config gp
        (st.Prepare (if config.IsTIP10 b.header.number then tx.hash else tx.hashOld)
          b.header.hash i) b.header tx ug fee cfg).1 = .error e ∧
      processTxs X config b cfg (tx :: txs) i gp st ug fee rs ls = .error e) := by
  constructor
  · intro ho
    have heq := ApplyTransaction_exec_ok X config gp
      (st.Prepare (if config.IsTIP10 b.header.number then tx.hash else tx.hashOld)
        b.header.hash i) b.header tx ug fee cfg m hm hg ho
    refine ⟨_, _, _, _, _, heq, by simp, ?_⟩
    simp only [processTxs, heq]
  · intro e ho
    have heq := ApplyTransaction_exec_error X config gp
      (st.Prepare (if config.IsTIP10 b.header.number then tx.hash else tx.hashOld)
        b.header.hash i) b.header tx ug fee cfg m e hm hg ho
    refine ⟨by rw [heq], ?_⟩
    simp only [processTxs, heq]

/-- Claim C4: above height 6638000 a sender on the first deny list makes
`ApplyTransaction` fail with no receipt and untouched accumulators; above
height 24642000 (which exceeds the first threshold) the second deny list
additionally applies with the same fatal effect; at heights at or below
6638000 the deny lists are not consulted at all (the result is invariant
under replacing both predicates). -/
theorem applyTransaction_deny_gates (X : Externals) (config : ChainConfig)
    (gp : GasPool) (st : StateDB) (hd : Header) (tx : Transaction) (ug : Nat)
    (fee : Int) (cfg : vm.Config) (m : Msg) (hm : tx.recovered = .ok m) :
    (hd.number > 6638000 → X.forbidden m.From = true →
      ApplyTransaction X config gp st hd tx ug fee cfg =
        (.error "ForbiddenSender", gp, st, ug, fee)) ∧
    (hd.number > 24642000 → X.forbidden m.From = false → X.forbidden2 m.From = true →
      ApplyTransaction X config gp st hd tx ug fee cfg =
        (.error "ForbiddenSender2", gp, st, ug, fee)) ∧
    (hd.number ≤ 6638000 → ∀ f1 f2 : Address → Bool,
      ApplyTransaction { X with forbidden := f1, forbidden2 := f2 }
          config gp st hd tx ug fee cfg =
        ApplyTransaction X config gp st hd tx ug fee cfg) ∧
    ((6638000 : Int) < 24642000) := by
  refine ⟨?_, ?_, ?_, by norm_num⟩
  · intro h1 hf
    exact ApplyTransaction_gate1 X config gp st hd tx ug fee cfg m hm h1 hf
  · intro h2 hf1 hf2
    exact ApplyTransaction_gate2 X config gp st hd tx ug fee cfg m hm h2 hf1 hf2
  · intro hle f1 f2
    have hn : ¬(hd.number > 6638000) := by omega
    simp [ApplyTransaction, Transaction.AsMessage, hm, txGateErr, hn, ApplyMessage, vm.NewEVM]

/-- Claim C3: within one block's processing, `IsTIP10` at the block's height is
the single decision point for the transaction-hash scheme, and the selected
hash is used consistently: the key recorded by the `Prepare` call (as issued
by the `Process` loop and surviving in the returned handle's `thash`), the
Receipt's transaction hash, and the `GetLogs` key populating the Receipt's
logs all coincide. -/
theorem tip10_hash_consistency (X : Externals) (config : ChainConfig) (b : Block)
    (cfg : vm.Config) (tx : Transaction) (i : Nat) (gp : GasPool) (st : StateDB)
    (ug : Nat) (fee : Int) (rcp : Receipt) (gp' : GasPool) (st' : StateDB)
    (ug' : Nat) (fee' : Int)
    (h : ApplyTransaction X config gp
        (st.Prepare (if config.IsTIP10 b.header.number then tx.hash else tx.hashOld)
          b.header.hash i) b.header tx ug fee cfg = (.ok rcp, gp', st', ug', fee')) :
    rcp.txHash = (if config.IsTIP10 b.header.number then tx.hash else tx.hashOld) ∧
    st'.thash = rcp.txHash ∧
    rcp.logs = st'.GetLogs rcp.txHash := by
  obtain ⟨m, hm, hg, ho, hrcp, hgp, hst, hug, hfee⟩ :=
    ApplyTransaction_ok_inv _ _ _ _ _ _ _ _ _ _ _ _ _ _ h
  subst hrcp hst
  refine ⟨by simp [selectedHash], ?_, ?_⟩
  · simp [selectedHash, execStateAfter, StateDB.Finalise]
  · simp [selectedHash, execStateAfter, StateDB.Finalise]

/-- Claim C5: every Receipt constructed by a successful `ApplyTransaction` has
the hard-fork-gated transaction hash, the success flag from the execution
result, cumulative gas equal to the updated running total, per-transaction
gas from the result, logs fetched from the State Handle under that same hash,
a bloom computed over those logs, a contract-creation address present exactly
when the message's `to` is absent (derived from sender and nonce), and block
hash, block number and transaction index stamped from the prepared context;
and in `Process`, the k-th receipt has transaction index k. -/
theorem applyTransaction_receipt_fields :
    (∀ (X : Externals) (config : ChainConfig) (gp : GasPool) (st : StateDB)
       (hd : Header) (tx : Transaction) (ug : Nat) (fee : Int) (cfg : vm.Config)
       (rcp : Receipt) (gp' : GasPool) (st' : StateDB) (ug' : Nat) (fee' : Int),
       ApplyTransaction X config gp st hd tx ug fee cfg = (.ok rcp, gp', st', ug', fee') →
       ∃ m, tx.recovered = .ok m ∧
         rcp.txHash = (if config.IsTIP10 hd.number then tx.hash else tx.hashOld) ∧
         rcp.status = !(X.exec m (NewEVMContext m hd) gp st).result.failed ∧
         rcp.gasUsed = (X.exec m (NewEVMContext m hd) gp st).result.usedGas ∧
         rcp.cumulativeGasUsed = ug + rcp.gasUsed ∧
         rcp.cumulativeGasUsed = ug' ∧
         rcp.logs = st'.GetLogs rcp.txHash ∧
         rcp.bloom = types.CreateBloom [rcp] ∧
         (m.To = none → rcp.contractAddress = some (crypto.CreateAddress m.From tx.nonce)) ∧
         (m.To ≠ none → rcp.contractAddress = none) ∧
         rcp.blockHash = st.BlockHash ∧
         rcp.blockNumber = hd.number ∧
         rcp.transactionIndex = st.TxIndex) ∧
    (∀ (X : Externals) (config : ChainConfig) (b : Block) (st : StateDB)
       (cfg : vm.Config) (rs : List Receipt) (ls : List Log) (ug : Nat)
       (rw : ChainReward) (st' : StateDB),
       Process X config b st cfg = .ok (rs, ls, ug, rw, st') →
       ∀ (k : Nat) (hk : k < rs.length), (rs.get ⟨k, hk⟩).transactionIndex = k) := by
  constructor
  · intro X config gp st hd tx ug fee cfg rcp gp' st' ug' fee' h
    obtain ⟨m, hm, hg, ho, hrcp, hgp, hst, hug, hfee⟩ :=
      ApplyTransaction_ok_inv _ _ _ _ _ _ _ _ _ _ _ _ _ _ h
    subst hrcp hst
    refine ⟨m, hm, by simp [selectedHash], by simp, by simp, by simp, by simp [hug], ?_, ?_,
      ?_, ?_, by simp [StateDB.BlockHash], by simp, by simp [StateDB.TxIndex]⟩
    · simp [execStateAfter, StateDB.Finalise, selectedHash]
    · simp [types.CreateBloom]
    · intro hto; simp [hto]
    · intro hto
      cases hto2 : m.To with
      | none => exact absurd hto2 hto
      | some a => simp [hto2]
  · intro X config b st cfg rs ls ug rw st' h k hk
    simp only [Process] at h
    split at h
    · exact absurd h (by simp)
    · rename_i out hloop
      split at h
      · exact absurd h (by simp)
      · rename_i rw2 st2 hfin
        simp only [Except.ok.injEq, Prod.mk.injEq] at h
        obtain ⟨hrs, hls, hug, hrw, hst⟩ := h
        obtain ⟨δ, d1, d2, d3, d4, d5, d6⟩ :=
          processTxs_ok_spec X config b cfg b.transactions 0 _ st 0 0 [] [] out hloop
        subst hrs
        have hrsl : out.receipts = δ := by simpa using d1
        revert hk
        rw [hrsl]
        intro hk
        have p1 := (d6 k hk (d3 ▸ hk)).1
        simpa using p1

/-- Claim C6: on success `ApplyTransaction` commits the pending journal via
`Finalise` (the returned handle has its pending layer committed), advances
the used-gas counter by exactly the result's gas, and adds exactly
gas x gas-price plus the explicit fee (when present) to the accumulator; over
a whole loop the accumulator therefore ends at its initial value plus
the sum of the per-transaction contributions, and used gas at its initial
value plus the sum of the receipts' gas. -/
theorem applyTransaction_fee_accounting :
    (∀ (X : Externals) (config : ChainConfig) (gp : GasPool) (st : StateDB)
       (hd : Header) (tx : Transaction) (ug : Nat) (fee : Int) (cfg : vm.Config)
       (rcp : Receipt) (gp' : GasPool) (st' : StateDB) (ug' : Nat) (fee' : Int),
       ApplyTransaction X config gp st hd tx ug fee cfg = (.ok rcp, gp', st', ug', fee') →
       ∃ m, tx.recovered = .ok m ∧
         (X.exec m (NewEVMContext m hd) gp st).err = none ∧
         st' = (execStateAfter st (X.exec m (NewEVMContext m hd) gp st)).Finalise true ∧
         st'.committed = st'.pending ∧
         ug' = ug + (X.exec m (NewEVMContext m hd) gp st).result.usedGas ∧
         fee' = fee + ((X.exec m (NewEVMContext m hd) gp st).result.usedGas : Int) * m.GasPrice
           + m.Fee.getD 0) ∧
    (∀ (X : Externals) (config : ChainConfig) (b : Block) (cfg : vm.Config)
       (txs : List Transaction) (i : Nat) (gp : GasPool) (st : StateDB) (ug : Nat)
       (fee : Int) (rs : List Receipt) (ls : List Log) (out : TxLoopOut),
       processTxs X config b cfg txs i gp st ug fee rs ls = .ok out →
       ∃ δ, out.receipts = rs ++ δ ∧
         out.usedGas = ug + (δ.map Receipt.gasUsed).sum ∧
         out.feeAmount = fee + ((txs.zip δ).map (fun p => msgFeeTerm p.1 p.2.gasUsed)).sum) := by
  constructor
  · intro X config gp st hd tx ug fee cfg rcp gp' st' ug' fee' h
    obtain ⟨m, hm, hg, ho, hrcp, hgp, hst, hug, hfee⟩ :=
      ApplyTransaction_ok_inv _ _ _ _ _ _ _ _ _ _ _ _ _ _ h
    subst hst
    refine ⟨m, hm, ho, rfl, ?_, hug, hfee⟩
    simp [execStateAfter, StateDB.Finalise]
  · intro X config b cfg txs i gp st ug fee rs ls out h
    obtain ⟨δ, d1, d2, d3, d4, d5, d6⟩ :=
      processTxs_ok_spec X config b cfg txs i gp st ug fee rs ls out h
    exact ⟨δ, d1, d4, d5⟩

lemma ReadTransaction_recover_error (X : Externals) (config : ChainConfig)
    (st : StateDB) (hd : Header) (tx : Transaction) (cfg : vm.Config) (e : Err)
    (h : tx.recovered = .error e) :
    ReadTransaction X config st hd tx cfg = (.error e, st) := by
  simp [ReadTransaction, Transaction.AsMessage, h]

lemma ReadTransaction_gate (X : Externals) (config : ChainConfig) (st : StateDB)
    (hd : Header) (tx : Transaction) (cfg : vm.Config) (m : Msg)
    (hm : tx.recovered = .ok m) (h1 : hd.number > 6638000)
    (hf : X.forbidden m.From = true) :
    ReadTransaction X config st hd tx cfg = (.error "ForbiddenSender", st) := by
  simp [ReadTransaction, Transaction.AsMessage, hm, types.ForbidAddress,
    types.NewMessage, h1, hf]

lemma ReadTransaction_run (X : Externals) (config : ChainConfig) (st : StateDB)
    (hd : Header) (tx : Transaction) (cfg : vm.Config) (m : Msg)
    (hm : tx.recovered = .ok m)
    (hg : ¬(hd.number > 6638000 ∧ X.forbidden m.From = true)) :
    ReadTransaction X config st hd tx cfg =
      ((match (X.exec m (NewEVMContext (types.NewMessage m.From m.To m.Payment 0 m.Value
          m.Fee m.Gas m.GasPrice m.Data false) hd) (GasPool.AddGas 0 math.MaxUint64) st).err with
        | some e => .error e
        | none => .ok ((X.exec m (NewEVMContext (types.NewMessage m.From m.To m.Payment 0
            m.Value m.Fee m.Gas m.GasPrice m.Data false) hd)
            (GasPool.AddGas 0 math.MaxUint64) st).result.returnData,
          (X.exec m (NewEVMContext (types.NewMessage m.From m.To m.Payment 0 m.Value
            m.Fee m.Gas m.GasPrice m.Data false) hd)
            (GasPool.AddGas 0 math.MaxUint64) st).result.usedGas)),
       execStateAfter st (X.exec m (NewEVMContext (types.NewMessage m.From m.To m.Payment 0
         m.Value m.Fee m.Gas m.GasPrice m.Data false) hd)
         (GasPool.AddGas 0 math.MaxUint64) st)) := by
  have hgate : (if hd.number > 6638000
      then types.ForbidAddress X (types.NewMessage m.From m.To m.Payment 0 m.Value m.Fee
        m.Gas m.GasPrice m.Data false).From
      else none) = (none : Option Err) := by
    by_cases h1 : hd.number > 6638000
    · have hf : X.forbidden m.From = false := by
        cases hfa : X.forbidden m.From
        · rfl
        · exact absurd ⟨h1, hfa⟩ hg
      simp [types.ForbidAddress, types.NewMessage, h1, hf]
    · simp [h1]
  simp only [ReadTransaction, Transaction.AsMessage, hm, hgate, ApplyMessage, vm.NewEVM]
  cases ho : (X.exec m (NewEVMContext (types.NewMessage m.From m.To m.Payment 0 m.Value
      m.Fee m.Gas m.GasPrice m.Data false) hd) (GasPool.AddGas 0 math.MaxUint64) st).err <;>
    simp [ho, execStateAfter]

/-- Claim C7 (amended): `ReadTransaction` seeds its Gas Pool with the maximum
representable value, reconstructs a copy of the recovered message with zero
nonce and no nonce check (the payment field is carried over, not stripped),
uses that copy for the EVM context and passes the ORIGINAL recovered message
to the executor; it performs no state commit (the committed layer is
untouched, only the executor's pending/log effects appear) and no fee
accumulation, and returns the execution's raw return bytes and gas consumed
(or the recovery/policy/execution error). -/
theorem readTransaction_behaviour (X : Externals) (config : ChainConfig)
    (st : StateDB) (hd : Header) (tx : Transaction) (cfg : vm.Config) (m : Msg)
    (hm : tx.recovered = .ok m)
    (hg : ¬(hd.number > 6638000 ∧ X.forbidden m.From = true)) :
    ∃ o, o = X.exec m (NewEVMContext (types.NewMessage m.From m.To m.Payment 0 m.Value
        m.Fee m.Gas m.GasPrice m.Data false) hd) (GasPool.AddGas 0 math.MaxUint64) st ∧
      (ReadTransaction X config st hd tx cfg).2 = execStateAfter st o ∧
      (ReadTransaction X config st hd tx cfg).2.committed = st.committed ∧
      (∀ e, o.err = some e → (ReadTransaction X config st hd tx cfg).1 = .error e) ∧
      (o.err = none →
        (ReadTransaction X config st hd tx cfg).1 = .ok (o.result.returnData, o.result.usedGas)) := by
  refine ⟨_, rfl, ?_, ?_, ?_, ?_⟩
  · rw [ReadTransaction_run X config st hd tx cfg m hm hg]
  · rw [ReadTransaction_run X config st hd tx cfg m hm hg]
    simp [execStateAfter]
  · intro e he
    rw [ReadTransaction_run X config st hd tx cfg m hm hg]
    simp [he]
  · intro he
    rw [ReadTransaction_run X config st hd tx cfg m hm hg]
    simp [he]

/-- Claim C8 (amended): `ReadTransaction` applies only the first deny-list gate
at its threshold, exactly as `ApplyTransaction` does; above the first
threshold a sender on the first deny list is rejected by both with the same
error, and when the first gate passes, any rejection by `ReadTransaction`
comes from the executor, never from a deny list — in particular the second
deny-list gate of `ApplyTransaction` has no counterpart in `ReadTransaction`. -/
theorem readTransaction_first_gate_lockstep (X : Externals) (config : ChainConfig)
    (gp : GasPool) (st : StateDB) (hd : Header) (tx : Transaction) (ug : Nat)
    (fee : Int) (cfg : vm.Config) (m : Msg) (hm : tx.recovered = .ok m) :
    ((hd.number > 6638000 ∧ X.forbidden m.From = true) →
      (ReadTransaction X config st hd tx cfg).1 = .error "ForbiddenSender" ∧
      (ApplyTransaction X config gp st hd tx ug fee cfg).1 = .error "ForbiddenSender") ∧
    (¬(hd.number > 6638000 ∧ X.forbidden m.From = true) →
      ∀ e, (ReadTransaction X config st hd tx cfg).1 = .error e →
        (X.exec m (NewEVMContext (types.NewMessage m.From m.To m.Payment 0 m.Value m.Fee
          m.Gas m.GasPrice m.Data false) hd) (GasPool.AddGas 0 math.MaxUint64) st).err = some e) := by
  constructor
  · rintro ⟨h1, hf⟩
    constructor
    · rw [ReadTransaction_gate X config st hd tx cfg m hm h1 hf]
    · rw [ApplyTransaction_gate1 X config gp st hd tx ug fee cfg m hm h1 hf]
  · intro hg e he
    rw [ReadTransaction_run X config st hd tx cfg m hm hg] at he
    cases ho : (X.exec m (NewEVMContext (types.NewMessage m.From m.To m.Payment 0 m.Value
        m.Fee m.Gas m.GasPrice m.Data false) hd) (GasPool.AddGas 0 math.MaxUint64) st).err with
    | some e2 =>
      simp only [ho] at he
      simp at he
      rw [he]
    | none =>
      simp only [ho] at he
      simp at he

/-- Claim C9: `ReadTransaction` never mutates the supplied State Handle's
committed layer — no balance or nonce changes persist — and, for an executor
that reads only committed state, repeating the call on any handle with the
same committed layer (such as the handle observed after the call) returns
the same result. -/
theorem readTransaction_preserves_committed (X : Externals) (config : ChainConfig)
    (st : StateDB) (hd : Header) (tx : Transaction) (cfg : vm.Config)
    (hX : ∀ (m : Msg) (c : EVMContext) (g : GasPool) (s s' : StateDB),
      s.committed = s'.committed → X.exec m c g s = X.exec m c g s') :
    (ReadTransaction X config st hd tx cfg).2.committed = st.committed ∧
    (∀ st2 : StateDB, st2.committed = st.committed →
      (ReadTransaction X config st2 hd tx cfg).1 = (ReadTransaction X config st hd tx cfg).1) := by
  constructor
  · cases hm : tx.recovered with
    | error e =>
      rw [ReadTransaction_recover_error X config st hd tx cfg e hm]
    | ok m =>
      by_cases hcond : hd.number > 6638000 ∧ X.forbidden m.From = true
      · obtain ⟨h1, hf⟩ := hcond
        rw [ReadTransaction_gate X config st hd tx cfg m hm h1 hf]
      · rw [ReadTransaction_run X config st hd tx cfg m hm hcond]
        simp [execStateAfter]
  · intro st2 hc
    cases hm : tx.recovered with
    | error e =>
      rw [ReadTransaction_recover_error X config st hd tx cfg e hm,
        ReadTransaction_recover_error X config st2 hd tx cfg e hm]
    | ok m =>
      by_cases hcond : hd.number > 6638000 ∧ X.forbidden m.From = true
      · obtain ⟨h1, hf⟩ := hcond
        rw [ReadTransaction_gate X config st hd tx cfg m hm h1 hf,
          ReadTransaction_gate X config st2 hd tx cfg m hm h1 hf]
      · rw [ReadTransaction_run X config st hd tx cfg m hm hcond,
          ReadTransaction_run X config st2 hd tx cfg m hm hcond]
        have hEq := hX m (NewEVMContext (types.NewMessage m.From m.To m.Payment 0 m.Value
          m.Fee m.Gas m.GasPrice m.Data false) hd) (GasPool.AddGas 0 math.MaxUint64) st2 st hc
        simp [hEq]

/-- Concrete executor for witnesses: consumes 3 gas, succeeds without revert,
records the sender in the pending journal and emits one log under the
prepared transaction hash. -/
def execW : Msg → EVMContext → GasPool → StateDB → ExecOut := fun m _c g s =>
  { err := none, result := { usedGas := 3, failed := false, returnData := [9] },
    gp := g - 3, pending := (m.From, m.Value, m.Nonce) :: s.pending,
    execLogs := s.logs ++ [(s.thash, ⟨m.From, s.thash⟩)] }

/-- Concrete externals for witnesses: deny lists are {100} and {200}, the
reward summary counts receipts plus collected fees. -/
def XW : Externals :=
  { exec := execW, forbidden := fun a => a == 100, forbidden2 := fun a => a == 200,
    finalize := fun _hd s _txs rs fee => .ok (rs.length + fee.toNat, s) }

/-- Witness executor that reverts the inner call (no error, failed = true). -/
def execRevert : Msg → EVMContext → GasPool → StateDB → ExecOut := fun _m _c g s =>
  { err := none, result := { usedGas := 5, failed := true, returnData := [] },
    gp := g, pending := s.pending, execLogs := s.logs }

/-- Externals whose executor reverts the inner call. -/
def XRevert : Externals := { XW with exec := execRevert }

/-- Executor distinguishing the nonce check, for claim C7: it fails exactly
when the executed message still carries its nonce check. -/
def execNonce : Msg → EVMContext → GasPool → StateDB → ExecOut := fun m _c g s =>
  if m.CheckNonce then
    { err := some "nonce too high", result := { usedGas := 0, failed := false, returnData := [] },
      gp := g, pending := s.pending, execLogs := s.logs }
  else
    { err := none, result := { usedGas := 21000, failed := false, returnData := [7] },
      gp := g - 21000, pending := s.pending, execLogs := s.logs }

/-- Externals whose executor enforces the nonce check. -/
def XNonce : Externals := { XW with exec := execNonce }

/-- Executor whose behaviour depends only on the committed layer. -/
def execCommitted : Msg → EVMContext → GasPool → StateDB → ExecOut := fun _m _c g s =>
  { err := none, result := { usedGas := 2, failed := false, returnData := [4] },
    gp := g, pending := s.committed, execLogs := [] }

/-- Externals whose executor reads only committed state. -/
def XCommitted : Externals := { XW with exec := execCommitted }

/-- Witness message: a plain transfer with an explicit fee. -/
def msgW : Msg := ⟨7, some 8, 3, 2, 5, some 1, 100, 2, [], true⟩

/-- Witness transaction carrying `msgW`. -/
def txW : Transaction := ⟨.ok msgW, 11, 10, 2⟩

/-- Witness contract-creation message (`to` absent). -/
def msgCreate : Msg := ⟨7, none, 3, 2, 5, none, 100, 2, [], true⟩

/-- Witness contract-creation transaction. -/
def txCreate : Transaction := ⟨.ok msgCreate, 31, 30, 2⟩

/-- Witness transaction whose signature recovery fails. -/
def txBad : Transaction := ⟨.error "invalid sender", 13, 12, 0⟩

/-- Witness message from the sender on the first deny list. -/
def msg100 : Msg := ⟨100, some 8, 0, 0, 5, none, 100, 2, [], false⟩

/-- Witness transaction from the first deny-listed sender. -/
def tx100 : Transaction := ⟨.ok msg100, 41, 40, 0⟩

/-- Witness message from the sender on the second deny list only. -/
def msg200 : Msg := ⟨200, some 8, 0, 0, 5, none, 100, 2, [], false⟩

/-- Witness transaction from the second deny-listed sender. -/
def tx200 : Transaction := ⟨.ok msg200, 21, 20, 0⟩

/-- Witness header below both deny thresholds, above the TIP10 height. -/
def headerW : Header := ⟨150, 1000, 99⟩

/-- Witness header above the first deny threshold. -/
def headerH1 : Header := ⟨7000000, 1000, 98⟩

/-- Witness header above the second deny threshold. -/
def headerH2 : Header := ⟨24642001, 1000, 97⟩

/-- Witness chain config with TIP10 active from height 100. -/
def configW : ChainConfig := ⟨some 100⟩

/-- Witness state handle. -/
def stW : StateDB := ⟨[(7, 50, 2)], [(7, 50, 2)], [], 5, 6, 4⟩

/-- Witness block with a transfer and a contract creation. -/
def blockW : Block := ⟨headerW, [txW, txCreate]⟩


/-- First receipt of the witness block: the plain transfer. -/
def rcpA : Receipt := ⟨[], true, 3, 11, 3, none, [⟨7, 11⟩], [⟨7, 11⟩], 99, 150, 0⟩

/-- Second receipt of the witness block: the contract creation. -/
def rcpB : Receipt := ⟨[], true, 6, 31, 3, some 58, [⟨7, 31⟩], [⟨7, 31⟩], 99, 150, 1⟩

/-- State handle after the witness block. -/
def stFinW : StateDB :=
  ⟨[(7, 5, 2), (7, 5, 2), (7, 50, 2)], [(7, 5, 2), (7, 5, 2), (7, 50, 2)],
   [(11, ⟨7, 11⟩), (31, ⟨7, 31⟩)], 31, 99, 1⟩

/-- State handle after applying the witness transfer on the prepared handle. -/
def stA' : StateDB :=
  ⟨[(7, 5, 2), (7, 50, 2)], [(7, 5, 2), (7, 50, 2)], [(11, ⟨7, 11⟩)], 11, 99, 0⟩

theorem process_block_structure_witness :
    Process XW configW blockW stW () =
      .ok ([rcpA, rcpB], [⟨7, 11⟩, ⟨7, 31⟩], 6, 15, stFinW) ∧
    (∃ fee gp1 st1,
      processTxs XW configW blockW () blockW.transactions 0
          (GasPool.AddGas 0 blockW.header.gasLimit) stW 0 0 [] [] =
        .ok ⟨[rcpA, rcpB], [⟨7, 11⟩, ⟨7, 31⟩], 6, fee, gp1, st1⟩ ∧
      XW.finalize blockW.header st1 blockW.transactions [rcpA, rcpB] fee = .ok (15, stFinW) ∧
      ([⟨7, 11⟩, ⟨7, 31⟩] : List Log) = ([rcpA, rcpB].map Receipt.logs).flatten ∧
      ([rcpA, rcpB] : List Receipt).length = blockW.transactions.length ∧
      6 = ([rcpA, rcpB].map Receipt.gasUsed).sum) :=
  ⟨rfl, process_block_structure XW configW blockW stW () [rcpA, rcpB]
    [⟨7, 11⟩, ⟨7, 31⟩] 6 15 stFinW rfl⟩

theorem applyTransaction_failure_classes_witness :
    ∃ rcp gp2 st2 ug2 fee2,
      ApplyTransaction XRevert configW 500 (stW.Prepare 11 99 0) headerW txW 0 0 () =
        (.ok rcp, gp2, st2, ug2, fee2) ∧
      rcp.status = false ∧
      processTxs XRevert configW blockW () [txW] 0 500 stW 0 0 [] [] =
        processTxs XRevert configW blockW () [] 1 gp2 st2 ug2 fee2 [rcp] rcp.logs :=
  (applyTransaction_failure_classes XRevert configW blockW () [] txW 0 500 stW 0 0 [] []
    msgW rfl (by decide)).1 rfl

theorem tip10_hash_consistency_witness :
    rcpA.txHash = 11 ∧ stA'.thash = rcpA.txHash ∧ rcpA.logs = stA'.GetLogs rcpA.txHash :=
  tip10_hash_consistency XW configW blockW () txW 0 500 stW 0 0 rcpA 497 stA' 3 7 rfl

theorem applyTransaction_deny_gates_witness :
    ApplyTransaction XW configW 500 stW headerH1 tx100 0 0 () =
      (.error "ForbiddenSender", 500, stW, 0, 0) :=
  (applyTransaction_deny_gates XW configW 500 stW headerH1 tx100 0 0 () msg100 rfl).1
    (by decide) rfl

theorem applyTransaction_receipt_fields_witness :
    ∃ m, txW.recovered = .ok m ∧
      rcpA.txHash = 11 ∧
      rcpA.status = true ∧
      rcpA.gasUsed = 3 ∧
      rcpA.cumulativeGasUsed = 3 ∧
      rcpA.cumulativeGasUsed = 3 ∧
      rcpA.logs = stA'.GetLogs rcpA.txHash ∧
      rcpA.bloom = types.CreateBloom [rcpA] ∧
      (m.To = none → rcpA.contractAddress = some (crypto.CreateAddress m.From txW.nonce)) ∧
      (m.To ≠ none → rcpA.contractAddress = none) ∧
      rcpA.blockHash = 99 ∧
      rcpA.blockNumber = 150 ∧
      rcpA.transactionIndex = 0 :=
  applyTransaction_receipt_fields.1 XW configW 500 (stW.Prepare 11 99 0) headerW txW 0 0 ()
    rcpA 497 stA' 3 7 rfl

theorem applyTransaction_fee_accounting_witness :
    ∃ m, txW.recovered = .ok m ∧
      (XW.exec m (NewEVMContext m headerW) 500 (stW.Prepare 11 99 0)).err = none ∧
      stA' = (execStateAfter (stW.Prepare 11 99 0)
        (XW.exec m (NewEVMContext m headerW) 500 (stW.Prepare 11 99 0))).Finalise true ∧
      stA'.committed = stA'.pending ∧
      (3 : Nat) = 0 + (XW.exec m (NewEVMContext m headerW) 500 (stW.Prepare 11 99 0)).result.usedGas ∧
      (7 : Int) = 0 + ((XW.exec m (NewEVMContext m headerW) 500
        (stW.Prepare 11 99 0)).result.usedGas : Int) * m.GasPrice + m.Fee.getD 0 :=
  applyTransaction_fee_accounting.1 XW configW 500 (stW.Prepare 11 99 0) headerW txW 0 0 ()
    rcpA 497 stA' 3 7 rfl

/-- Claim C7 counterexample: at a concrete input whose executor enforces the
nonce check, `ReadTransaction` (which passes the ORIGINAL recovered message,
`checkNonce = true`, to the executor — source line 197) fails, while the
spec-described behaviour (executing the reconstructed nonce-free copy,
`ReadTransactionSpecC7`) succeeds; the two functions disagree at this input. -/
theorem readTransaction_not_spec_message :
    (ReadTransaction XNonce configW stW headerW txW ()).1 = .error "nonce too high" ∧
    (ReadTransactionSpecC7 XNonce configW stW headerW txW ()).1 = .ok ([7], 21000) ∧
    ReadTransaction XNonce configW stW headerW txW () ≠
      ReadTransactionSpecC7 XNonce configW stW headerW txW () := by
  decide

theorem readTransaction_behaviour_witness :
    ∃ o, o = XW.exec msgW (NewEVMContext (types.NewMessage msgW.From msgW.To msgW.Payment 0
        msgW.Value msgW.Fee msgW.Gas msgW.GasPrice msgW.Data false) headerW)
        (GasPool.AddGas 0 math.MaxUint64) stW ∧
      (ReadTransaction XW configW stW headerW txW ()).2 = execStateAfter stW o ∧
      (ReadTransaction XW configW stW headerW txW ()).2.committed = stW.committed ∧
      (∀ e, o.err = some e → (ReadTransaction XW configW stW headerW txW ()).1 = .error e) ∧
      (o.err = none → (ReadTransaction XW configW stW headerW txW ()).1 =
        .ok (o.result.returnData, o.result.usedGas)) :=
  readTransaction_behaviour XW configW stW headerW txW () msgW rfl (by decide)

/-- Claim C8 counterexample: at height 24642001 a sender on the second deny
list only is rejected by `ApplyTransaction` but accepted by
`ReadTransaction`, so the two do not reject the same senders. -/
theorem readTransaction_missing_second_gate :
    (ApplyTransaction XW configW 500 stW headerH2 tx200 0 0 ()).1 = .error "ForbiddenSender2" ∧
    (ReadTransaction XW configW stW headerH2 tx200 ()).1 = .ok ([9], 3) := by
  decide

theorem readTransaction_first_gate_lockstep_witness :
    (ReadTransaction XW configW stW headerH1 tx100 ()).1 = .error "ForbiddenSender" ∧
    (ApplyTransaction XW configW 500 stW headerH1 tx100 0 0 ()).1 = .error "ForbiddenSender" :=
  (readTransaction_first_gate_lockstep XW configW 500 stW headerH1 tx100 0 0 ()
    msg100 rfl).1 ⟨by decide, rfl⟩

theorem readTransaction_preserves_committed_witness :
    (ReadTransaction XCommitted configW stW headerW txW ()).2.committed = stW.committed ∧
    (∀ st2 : StateDB, st2.committed = stW.committed →
      (ReadTransaction XCommitted configW st2 headerW txW ()).1 =
        (ReadTransaction XCommitted configW stW headerW txW ()).1) :=
  readTransaction_preserves_committed XCommitted configW stW headerW txW ()
    (fun _m _c _g s s' h => by simp [XCommitted, XW, execCommitted, h])

theorem applyTransaction_error_preserves_accumulators_witness :
    ApplyTransaction XW configW 500 stW headerW txBad 4 6 () =
      (.error "invalid sender", 500, stW, 4, 6) ∧
    ((4 : Nat) = 4 ∧ (6 : Int) = 6) :=
  ⟨rfl, applyTransaction_error_preserves_accumulators XW configW 500 stW headerW txBad 4 6 ()
    "invalid sender" 500 stW 4 6 rfl⟩
